import Mathlib

/-!
Verification development for the multi-source sanctions search service.

The definitions below are a shallow embedding of the Python source:
`backend/src/services/aggregator.py`, `backend/src/services/fuzzy_matcher.py`
(abstracted as a score function), `backend/src/services/graph_service.py`,
`backend/src/services/offshore_service.py`, `backend/src/models/requests.py`,
`backend/src/services/sanctions_io_service.py` and `api/search.py`.
Strings are modelled with Lean strings (character classes ASCII-faithful),
machine integers with Nat/Int, fallible calls with Except/Option, and the
external stores/HTTP clients as explicit outcome parameters.
-/

namespace ClearGate

/-- Sanctioned entity as exchanged between the source services and the
aggregator. Only the fields the aggregation logic reads are modelled; the
entity models in `models/responses.py` (OpenSanctionsEntity,
SanctionsIoEntity) share exactly these fields. Scores are integer
percentages in 0..100. -/
structure Entity where
  name : String
  aliases : List String
  is_sanctioned : Bool
  match_score : Nat
deriving DecidableEq, Repr

/-- Python truthiness of an optional string (None and the empty string are
falsy, every other string is truthy). -/
def strTruthy : Option String → Bool
  | none => false
  | some s => !s.isEmpty

/-- Loop body of `ResultAggregator._score_results` (aggregator.py lines
196-228) applied to one entity: compute the match score via
`FuzzyMatcher.calculate_score` (abstracted as `calculate_score`), filter by
search mode, and update `match_score`. Returns `none` when the Python loop
hits `continue` (the entity is dropped). -/
def scoreEntity (calculate_score : String → String → Nat)
    (search_type : String) (fuzzy_threshold : Nat) (query : String)
    (result : Entity) : Option Entity :=
  let score := calculate_score query result.name
  if search_type = "exact" then
    if score < 100 then
      let alias_scores := result.aliases.map (fun a => calculate_score query a)
      if alias_scores.any (fun s => s = 100) then
        some { result with match_score := 100 }
      else
        none
    else
      some { result with match_score := score }
  else if search_type = "fuzzy" then
    if score < fuzzy_threshold then
      let alias_scores := result.aliases.map (fun a => calculate_score query a)
      let score := if alias_scores.isEmpty then score else alias_scores.foldl Nat.max 0
      if score < fuzzy_threshold then
        none
      else
        some { result with match_score := score }
    else
      some { result with match_score := score }
  else
    some { result with match_score := score }

/-- Comparison used for the per-source sort in `_score_results`
(`sort(key=lambda x: x.match_score, reverse=True)`): stable descending by
`match_score`. `a` may precede `b` exactly when `b`'s key is at most
`a`'s. -/
def scoreDescLe (a b : Entity) : Bool :=
  b.match_score ≤ a.match_score

/-- `ResultAggregator._score_results` (aggregator.py lines 177-233): score
and filter each entity, then stable-sort by `match_score` descending. -/
def scoreResults (calculate_score : String → String → Nat) (query : String)
    (results : List Entity) (search_type : String) (fuzzy_threshold : Nat) :
    List Entity :=
  (results.filterMap (scoreEntity calculate_score search_type fuzzy_threshold query)).mergeSort
    scoreDescLe

/-- Per-source bucket of a search response (`SourceResults` in
models/responses.py). -/
structure SourceResults where
  found : Bool
  count : Nat
  sanctioned_count : Nat
  error : Option String
  results : List Entity
deriving DecidableEq, Repr

/-- Results grouped by source (`AggregatedResults` in models/responses.py). -/
structure AggregatedResults where
  opensanctions : SourceResults
  sanctions_io : SourceResults
  offshore_leaks : SourceResults
deriving DecidableEq, Repr

/-- Multi-source search response envelope (`SearchResponse` in
models/responses.py); only fields produced by the aggregator are kept. -/
structure SearchResponse where
  query : String
  search_type : String
  results_by_source : AggregatedResults
  all_results : List Entity
  total_results : Nat
  total_sanctioned : Nat
  offshore_connections_found : Bool
  sources_searched : List String
  sources_succeeded : List String
  sources_failed : List String
  fuzzy_threshold : Option Nat
deriving DecidableEq, Repr

/-- Comparison used for the final sort in `ResultAggregator.aggregate`
(`sort(key=lambda x: (x.is_sanctioned, x.match_score), reverse=True)`):
stable descending by the lexicographic key (is_sanctioned, match_score),
with False < True on booleans. `a` may precede `b` exactly when `b`'s key
is lexicographically at most `a`'s. -/
def sanctionedScoreDescLe (a b : Entity) : Bool :=
  b.is_sanctioned.toNat < a.is_sanctioned.toNat ||
    (b.is_sanctioned = a.is_sanctioned && b.match_score ≤ a.match_score)

/-- Python `sources_requested or [...]` from aggregator.py line 129: `None`
and the empty list both fall back to the default. -/
def sourcesOrDefault (sources_requested : Option (List String)) : List String :=
  match sources_requested with
  | none => ["opensanctions", "sanctions_io", "offshore_leaks"]
  | some l => if l.isEmpty then ["opensanctions", "sanctions_io", "offshore_leaks"] else l

/-- `ResultAggregator.aggregate` (aggregator.py lines 32-175). The
`FuzzyMatcher` held by the aggregator is abstracted by its
`calculate_score` function; `fuzzy_threshold` is the value the aggregator
was constructed with. -/
def aggregate (calculate_score : String → String → Nat) (fuzzy_threshold : Nat)
    (query : String) (search_type : String)
    (opensanctions_results : List Entity) (sanctions_io_results : List Entity)
    (opensanctions_error : Option String) (sanctions_io_error : Option String)
    (offshore_leaks_results : Option (List Entity)) (offshore_leaks_error : Option String)
    (sources_requested : Option (List String)) : SearchResponse :=
  let offshore_leaks_results := offshore_leaks_results.getD []
  let opensanctions_scored :=
    scoreResults calculate_score query opensanctions_results search_type fuzzy_threshold
  let sanctions_io_scored :=
    scoreResults calculate_score query sanctions_io_results search_type fuzzy_threshold
  let opensanctions_source : SourceResults :=
    { found := 0 < opensanctions_scored.length
      count := opensanctions_scored.length
      sanctioned_count := opensanctions_scored.countP (fun e => e.is_sanctioned)
      error := opensanctions_error
      results := opensanctions_scored }
  let sanctions_io_source : SourceResults :=
    { found := 0 < sanctions_io_scored.length
      count := sanctions_io_scored.length
      sanctioned_count := sanctions_io_scored.countP (fun e => e.is_sanctioned)
      error := sanctions_io_error
      results := sanctions_io_scored }
  let offshore_leaks_source : SourceResults :=
    { found := 0 < offshore_leaks_results.length
      count := offshore_leaks_results.length
      sanctioned_count := 0
      error := offshore_leaks_error
      results := offshore_leaks_results }
  let all_results := (opensanctions_scored ++ sanctions_io_scored).mergeSort sanctionedScoreDescLe
  let sources_searched := sourcesOrDefault sources_requested
  let sources_succeeded :=
    (if "opensanctions" ∈ sources_searched ∧ ¬strTruthy opensanctions_error then
      ["opensanctions"] else []) ++
    (if "sanctions_io" ∈ sources_searched ∧ ¬strTruthy sanctions_io_error then
      ["sanctions_io"] else []) ++
    (if "offshore_leaks" ∈ sources_searched ∧ ¬strTruthy offshore_leaks_error then
      ["offshore_leaks"] else [])
  let sources_failed :=
    (if "opensanctions" ∈ sources_searched ∧ strTruthy opensanctions_error then
      ["opensanctions"] else []) ++
    (if "sanctions_io" ∈ sources_searched ∧ strTruthy sanctions_io_error then
      ["sanctions_io"] else []) ++
    (if "offshore_leaks" ∈ sources_searched ∧ strTruthy offshore_leaks_error then
      ["offshore_leaks"] else [])
  { query := query
    search_type := search_type
    results_by_source :=
      { opensanctions := opensanctions_source
        sanctions_io := sanctions_io_source
        offshore_leaks := offshore_leaks_source }
    all_results := all_results
    total_results := all_results.length
    total_sanctioned := all_results.countP (fun e => e.is_sanctioned)
    offshore_connections_found := false
    sources_searched := sources_searched
    sources_succeeded := sources_succeeded
    sources_failed := sources_failed
    fuzzy_threshold := if search_type = "fuzzy" then some fuzzy_threshold else none }

/-! Source clients and the orchestration boundary (api/search.py,
services/sanctions_io_service.py). -/

/-- Exception raised by a source service and caught at the
`search_source` boundary: `APITimeoutError`, `APIError` (with its
`message` attribute), or any other exception (with its string
rendering). -/
inductive RaisedException where
  | apiTimeout (message : String)
  | api (message : String)
  | other (message : String)
deriving DecidableEq, Repr

/-- Outcome of the underlying HTTP request made by
`SanctionsIoService._make_request`: a parsed result list, or one of the
failure modes distinguished by the `except` clauses of
`SanctionsIoService.search` (sanctions_io_service.py lines 130-195). -/
inductive RequestOutcome where
  | success (results : List Entity)
  | circuitBreakerOpen
  | timeout
  | httpStatus (code : Nat)
  | failure (message : String)
deriving DecidableEq, Repr

/-- `SanctionsIoService.search` (sanctions_io_service.py lines 130-195):
returns the parsed entities on success and converts every failure of the
underlying request into a raised `APIError`/`APITimeoutError` with a
descriptive message. `timeoutSecs` is the configured request timeout
echoed into the timeout message. -/
def sanctionsIoSearch (timeoutSecs : Nat) (o : RequestOutcome) :
    Except RaisedException (List Entity) :=
  match o with
  | .success results => .ok results
  | .circuitBreakerOpen => .error (.api "Sanctions.io service circuit breaker open")
  | .timeout =>
      .error (.apiTimeout ("Sanctions.io API request timed out after " ++ toString timeoutSecs ++ "s"))
  | .httpStatus code =>
      if code = 401 then .error (.api "Sanctions.io API key is invalid")
      else if code = 429 then
        .error (.api "Sanctions.io rate limit exceeded. Please try again later.")
      else .error (.api ("Sanctions.io API error: " ++ toString code))
  | .failure message => .error (.api ("Unexpected error: " ++ message))

/-- `search_source` (api/search.py lines 130-146): runs one service call
and converts every raised exception into an `(empty results, error
string)` pair; on success the error component is `None`. -/
def search_source (call : Except RaisedException (List Entity)) :
    List Entity × Option String :=
  match call with
  | .ok results => (results, none)
  | .error (.apiTimeout _) => ([], some "Request timed out")
  | .error (.api message) => ([], some message)
  | .error (.other message) => ([], some ("Unexpected error: " ++ message))

/-- Composition of `search_source` with the sanctions_io
`SourceClient` variant: the whole per-source dispatch path for that
source. -/
def searchSourceSanctionsIo (timeoutSecs : Nat) (o : RequestOutcome) :
    List Entity × Option String :=
  search_source (sanctionsIoSearch timeoutSecs o)

/-! Graph service (services/graph_service.py). -/

/-- Value stored in a Neo4j property bag: an already-serializable value, a
store-native temporal value (DateTime/Date/Time, carrying the string its
`iso_format()` renders to), or a list of values. -/
inductive NeoValue where
  | plain (s : String)
  | temporal (iso : String)
  | listVal (vs : List NeoValue)

/-- Element conversion used inside `_serialize_properties`: a temporal
value becomes its ISO string, everything else passes through. -/
def serializeValue : NeoValue → NeoValue
  | .temporal iso => .plain iso
  | v => v

/-- `GraphService._serialize_properties` (graph_service.py lines 207-223):
temporal values become ISO strings, lists are converted elementwise, other
values pass through. -/
def serializeProperties (properties : List (String × NeoValue)) :
    List (String × NeoValue) :=
  properties.map (fun kv =>
    match kv.2 with
    | .temporal iso => (kv.1, .plain iso)
    | .listVal vs => (kv.1, .listVal (vs.map serializeValue))
    | v => (kv.1, v))

/-- Graph node of the connection graph (models/graph_models.py). -/
structure GraphNode where
  id : String
  label : String
  node_type : String
  properties : List (String × NeoValue)
  color : String

/-- Graph edge of the connection graph (models/graph_models.py). -/
structure GraphEdge where
  id : String
  source : String
  target : String
  relationship_type : String
  properties : List (String × NeoValue)

/-- Connection graph envelope (models/graph_models.py). -/
structure ConnectionGraph where
  nodes : List GraphNode
  edges : List GraphEdge
  center_node_id : String
  depth : Nat
  node_count : Nat
  edge_count : Nat

/-- Raw node dict produced by the Cypher query in
`GraphService.get_connections` (`label` is `n.name`, possibly null). -/
structure RawNode where
  id : String
  label : Option String
  node_type : String
  properties : List (String × NeoValue)

/-- Raw relationship dict produced by the Cypher query in
`GraphService.get_connections`. -/
structure RawEdge where
  id : String
  source : String
  target : String
  relationship_type : String
  properties : List (String × NeoValue)

/-- One record returned by `client.execute_read` for the connections
query: the collected node and relationship dicts. -/
structure GraphRecord where
  nodes : List RawNode
  edges : List RawEdge

/-- `GraphService.NODE_COLORS` (graph_service.py lines 18-23). -/
def NODE_COLORS : List (String × String) :=
  [("Officer", "#3B82F6"), ("Entity", "#10B981"),
   ("Intermediary", "#F59E0B"), ("Address", "#6B7280")]

/-- Python `self.NODE_COLORS.get(node_type, "#6B7280")`. -/
def nodeColor (node_type : String) : String :=
  match NODE_COLORS.find? (fun p => p.1 = node_type) with
  | some p => p.2
  | none => "#6B7280"

/-- First-occurrence de-duplication by key with an accumulated seen set,
embedding both `GraphService._deduplicate_nodes` (key = node id,
graph_service.py lines 182-192) and `GraphService._deduplicate_edges`
(key = (source, target, relationship_type) triple, lines 194-205); the
Python `set` of seen keys is modelled as a list. -/
def dedupByKeyAux {α κ : Type} [DecidableEq κ] (key : α → κ) :
    List κ → List α → List α
  | _, [] => []
  | seen, x :: rest =>
      if key x ∈ seen then dedupByKeyAux key seen rest
      else x :: dedupByKeyAux key (key x :: seen) rest

/-- Seen set accumulated by `dedupByKeyAux` after one pass, kept as the
list of keys it has inserted. -/
def seenAfter {α κ : Type} [DecidableEq κ] (key : α → κ) :
    List κ → List α → List κ
  | seen, [] => seen
  | seen, x :: rest =>
      if key x ∈ seen then seenAfter key seen rest
      else seenAfter key (key x :: seen) rest

/-- `GraphService._deduplicate_nodes`: remove duplicate nodes by id,
keeping first occurrences. -/
def deduplicateNodes (nodes : List GraphNode) : List GraphNode :=
  dedupByKeyAux (fun n => n.id) [] nodes

/-- Key of an edge for de-duplication. -/
def edgeKey (e : GraphEdge) : String × String × String :=
  (e.source, e.target, e.relationship_type)

/-- `GraphService._deduplicate_edges`: remove duplicate edges by the
(source, target, relationship_type) triple, keeping first occurrences. -/
def deduplicateEdges (edges : List GraphEdge) : List GraphEdge :=
  dedupByKeyAux edgeKey [] edges

/-- Python `node_data["label"] or "Unknown"`: null and the empty string
fall back to "Unknown". -/
def labelOrUnknown : Option String → String
  | none => "Unknown"
  | some s => if s.isEmpty then "Unknown" else s

/-- Per-node parsing step of `GraphService.get_connections`
(graph_service.py lines 121-136). -/
def parseGraphNode (node_data : RawNode) : GraphNode :=
  { id := node_data.id
    label := labelOrUnknown node_data.label
    node_type := node_data.node_type
    properties := serializeProperties node_data.properties
    color := nodeColor node_data.node_type }

/-- Per-edge parsing step of `GraphService.get_connections`
(graph_service.py lines 138-151). -/
def parseGraphEdge (edge_data : RawEdge) : GraphEdge :=
  { id := edge_data.id
    source := edge_data.source
    target := edge_data.target
    relationship_type := edge_data.relationship_type
    properties := serializeProperties edge_data.properties }

/-- Empty connection graph returned when the query matches nothing
(graph_service.py lines 105-114). -/
def emptyConnectionGraph (node_id : Int) (depth : Nat) : ConnectionGraph :=
  { nodes := []
    edges := []
    center_node_id := toString node_id
    depth := depth
    node_count := 0
    edge_count := 0 }

/-- `GraphService.get_connections` (graph_service.py lines 29-180). The
store call `client.execute_read` is abstracted as its outcome
`queryResult` (records, or the raised exception's string rendering); any
query failure is wrapped into an `APIError` whose message is modelled as
the `Except.error` payload. -/
def get_connections (node_id : Int) (depth : Nat)
    (queryResult : Except String (List GraphRecord)) :
    Except String ConnectionGraph :=
  match queryResult with
  | .error e => .error ("Graph query failed: " ++ e)
  | .ok records =>
    match records with
    | [] => .ok (emptyConnectionGraph node_id depth)
    | record :: _ =>
      if record.nodes.isEmpty then .ok (emptyConnectionGraph node_id depth)
      else
        let nodes := deduplicateNodes (record.nodes.map parseGraphNode)
        let edges := deduplicateEdges (record.edges.map parseGraphEdge)
        .ok { nodes := nodes
              edges := edges
              center_node_id := toString node_id
              depth := depth
              node_count := nodes.length
              edge_count := edges.length }

/-! Offshore Leaks entity lookup (services/offshore_service.py). -/

/-- Sample connection attached to an offshore entity
(models/graph_models.py). -/
structure OffshoreConnection where
  entity_id : String
  entity_name : String
  entity_type : String
  relationship : String
  jurisdiction : Option String
deriving DecidableEq, Repr

/-- Offshore Leaks entity (models/graph_models.py); fields as produced by
`OffshoreLeaksService._parse_record`. -/
structure OffshoreEntity where
  node_id : Int
  name : String
  node_type : String
  countries : List String
  jurisdiction : Option String
  jurisdiction_description : Option String
  incorporation_date : Option String
  service_provider : Option String
  company_type : Option String
  status : Option String
  address : Option String
  source_dataset : String
  connections_count : Int
  connections : List OffshoreConnection
  match_score : Nat
deriving DecidableEq, Repr

/-- Raw connection dict collected by the offshore Cypher queries
(`entity_name` and `jurisdiction` may be null). -/
structure RawConnection where
  entity_id : String
  entity_name : Option String
  entity_type : String
  relationship : String
  jurisdiction : Option String
deriving DecidableEq, Repr

/-- One record returned by the offshore `get_by_id` Cypher query
(offshore_service.py lines 249-281); nullable store values are optional. -/
structure OffshoreRecord where
  node_id : Int
  name : Option String
  node_type : String
  countries : Option String
  jurisdiction : Option String
  jurisdiction_description : Option String
  incorporation_date : Option String
  service_provider : Option String
  company_type : Option String
  status : Option String
  address : Option String
  source_dataset : Option String
  conn_count : Int
  connections : List RawConnection
deriving DecidableEq, Repr

/-- ASCII-faithful model of the whitespace set removed by Python
`str.strip()`. -/
def pyIsSpaceChar (c : Char) : Bool :=
  c = ' ' || c = '\t' || c = '\n' || c = '\r' || c = '\x0b' || c = '\x0c'

/-- Python `str.strip()` (ASCII-faithful). -/
def pyStrip (s : String) : String :=
  String.mk (((s.toList.dropWhile pyIsSpaceChar).reverse.dropWhile pyIsSpaceChar).reverse)

/-- Countries parsing step of `_parse_record` (offshore_service.py lines
194-198): a falsy value gives no countries; otherwise split on ";", strip
each part and drop the blank ones. -/
def parseCountries : Option String → List String
  | none => []
  | some s =>
      if s.isEmpty then []
      else ((s.splitOn ";").map pyStrip).filter (fun c => !c.isEmpty)

/-- Connections parsing step of `_parse_record` (offshore_service.py lines
200-211): keep the connection dicts whose `entity_name` is truthy. -/
def parseConnections (conns : List RawConnection) : List OffshoreConnection :=
  conns.filterMap (fun conn =>
    match conn.entity_name with
    | none => none
    | some n =>
        if n.isEmpty then none
        else some { entity_id := conn.entity_id
                    entity_name := n
                    entity_type := conn.entity_type
                    relationship := conn.relationship
                    jurisdiction := conn.jurisdiction })

/-- `OffshoreLeaksService._parse_record` (offshore_service.py lines
184-234). `score_times_ten` models `int(raw_score * 10)` computed from the
record's relevance score (the float arithmetic happens before this
boundary); `match_score` caps it at 100. -/
def parse_record (score_times_ten : Nat) (record : OffshoreRecord) : OffshoreEntity :=
  { node_id := record.node_id
    name := (match record.name with
             | none => "Unknown Entity"
             | some n => if n.isEmpty then "Unknown Entity" else n)
    node_type := record.node_type
    countries := parseCountries record.countries
    jurisdiction := record.jurisdiction
    jurisdiction_description := record.jurisdiction_description
    incorporation_date := record.incorporation_date
    service_provider := record.service_provider
    company_type := record.company_type
    status := record.status
    address := record.address
    source_dataset := record.source_dataset.getD "Unknown"
    connections_count := record.conn_count
    connections := parseConnections record.connections
    match_score := Nat.min 100 score_times_ten }

/-- `OffshoreLeaksService.get_by_id` (offshore_service.py lines 236-302).
The store call is abstracted as its outcome `queryResult`; `node_id` is
only forwarded into the query parameters. No matching record yields
`none`; a store failure is re-raised as an `APIError`, modelled as the
`Except.error` payload. Before parsing, the code injects the dummy
relevance score 10.0, so `score_times_ten = 100`. -/
def get_by_id (node_id : Int)
    (queryResult : Except String (List OffshoreRecord)) :
    Except String (Option OffshoreEntity) :=
  match queryResult with
  | .error e => .error ("Failed to get entity by ID: " ++ e)
  | .ok [] => .ok none
  | .ok (record :: _) => .ok (some (parse_record 100 record))

/-! Request validation (models/requests.py). -/

/-- ASCII-faithful model of Python `str.isprintable()` per character
(printable ASCII is 0x20..0x7e). -/
def pyIsPrintable (c : Char) : Bool :=
  0x20 ≤ c.toNat && c.toNat ≤ 0x7e

/-- Validated search request (`SearchRequest` in models/requests.py);
`query` holds the sanitized value the validator returned. -/
structure SearchRequest where
  query : String
  search_type : String
  sources : List String
  limit : Int
  fuzzy_threshold : Int
deriving DecidableEq, Repr

/-- Literal check of the `search_type` field. -/
def validSearchType (s : String) : Bool :=
  s = "exact" || s = "fuzzy"

/-- Literal check of one element of the `sources` field. -/
def validSource (s : String) : Bool :=
  s = "opensanctions" || s = "sanctions_io" || s = "offshore_leaks"

/-- `SearchRequest.validate_query` (requests.py lines 42-54): strip, reject
the empty result, then drop non-printable characters. -/
def validate_query (v : String) : Except String String :=
  let v := pyStrip v
  if v.isEmpty then .error "Query cannot be empty"
  else .ok (String.mk (v.toList.filter pyIsPrintable))

/-- Construction of a `SearchRequest` (models/requests.py lines 7-62):
pydantic first enforces the declared field constraints — the length bounds
apply to the raw `query` string — and then runs the `validate_query` and
`validate_sources` validators. Construction succeeds exactly when every
check passes. -/
def mkSearchRequest (query : String) (search_type : String)
    (sources : List String) (limit : Int) (fuzzy_threshold : Int) :
    Except String SearchRequest :=
  if query.length < 2 then .error "query too short"
  else if 200 < query.length then .error "query too long"
  else
    match validate_query query with
    | .error e => .error e
    | .ok sanitized =>
      if !validSearchType search_type then .error "invalid search_type"
      else if !sources.all validSource then .error "invalid source"
      else if sources.isEmpty then .error "At least one source must be selected"
      else if limit < 1 then .error "limit out of range"
      else if 50 < limit then .error "limit out of range"
      else if fuzzy_threshold < 50 then .error "fuzzy_threshold out of range"
      else if 100 < fuzzy_threshold then .error "fuzzy_threshold out of range"
      else .ok { query := sanitized
                 search_type := search_type
                 sources := sources
                 limit := limit
                 fuzzy_threshold := fuzzy_threshold }

/-! Search orchestration (api/search.py `perform_search`). -/

/-- ASCII-faithful model of Python `str.lower()`. -/
def pyLower (s : String) : String :=
  s.toLower

/-- Append loop of `perform_search` (api/search.py lines 199-204): walk the
local results, appending each entity whose lowercased name is not in the
growing `existing_names` set (modelled as a list of names). -/
def appendUniqueLocals (existing_names : List String) :
    List Entity → List Entity
  | [] => []
  | local_entity :: rest =>
      if pyLower local_entity.name ∈ existing_names then
        appendUniqueLocals existing_names rest
      else
        local_entity :: appendUniqueLocals (pyLower local_entity.name :: existing_names) rest

/-- Local-store merge step of `perform_search` (api/search.py lines
194-204): when the local search found anything, either replace a failed,
empty opensanctions result (clearing its error), or append the local
entities not already present by lowercased name. -/
def mergeLocalResults (opensanctions_results : List Entity)
    (opensanctions_error : Option String) (local_results : List Entity) :
    List Entity × Option String :=
  if local_results.isEmpty then (opensanctions_results, opensanctions_error)
  else if strTruthy opensanctions_error && opensanctions_results.isEmpty then
    (local_results, none)
  else
    (opensanctions_results ++
       appendUniqueLocals (opensanctions_results.map (fun e => pyLower e.name)) local_results,
     opensanctions_error)

/-- `perform_search` (api/search.py lines 148-217). The remote service
calls are abstracted as their outcomes: `osCall`/`siCall` are what the
opensanctions and sanctions_io `search_source` dispatches observe,
`offshoreCall` the direct offshore search (whose exceptions are caught
inline as the error string), and `localCall` the `(results, error)` pair
of `search_local_sanctions`. A source not in `request.sources` is never
dispatched and keeps empty results with no error. The local merge runs
unconditionally, after which the aggregator (constructed with the
request's threshold) assembles the response. -/
def perform_search (calculate_score : String → String → Nat)
    (request : SearchRequest)
    (osCall siCall : Except RaisedException (List Entity))
    (offshoreCall : Except String (List Entity))
    (localCall : List Entity × Option String) : SearchResponse :=
  let os := if "opensanctions" ∈ request.sources then search_source osCall else ([], none)
  let si := if "sanctions_io" ∈ request.sources then search_source siCall else ([], none)
  let offshore :=
    if "offshore_leaks" ∈ request.sources then
      match offshoreCall with
      | .ok results => (results, (none : Option String))
      | .error e => ([], some e)
    else ([], none)
  let merged := mergeLocalResults os.1 os.2 localCall.1
  aggregate calculate_score request.fuzzy_threshold.toNat
    request.query request.search_type
    merged.1 si.1 merged.2 si.2
    (some offshore.1) offshore.2
    (some request.sources)

/-- Selector used to state per-source properties of `aggregate`: the error
argument belonging to a source name. -/
def sourceErrorArg (src : String)
    (opensanctions_error sanctions_io_error offshore_leaks_error : Option String) :
    Option String :=
  if src = "opensanctions" then opensanctions_error
  else if src = "sanctions_io" then sanctions_io_error
  else offshore_leaks_error

/-- Selector used to state per-source properties of `aggregate`: the raw
result-list argument belonging to a source name. -/
def sourceRawArg (src : String)
    (opensanctions_results sanctions_io_results : List Entity)
    (offshore_leaks_results : Option (List Entity)) : List Entity :=
  if src = "opensanctions" then opensanctions_results
  else if src = "sanctions_io" then sanctions_io_results
  else offshore_leaks_results.getD []

/-- Selector used to state per-source properties of `aggregate`: the
response bucket belonging to a source name. -/
def sourceBucket (src : String) (resp : SearchResponse) : SourceResults :=
  if src = "opensanctions" then resp.results_by_source.opensanctions
  else if src = "sanctions_io" then resp.results_by_source.sanctions_io
  else resp.results_by_source.offshore_leaks

/-- Sample raw node used in concrete instances. -/
def sampleRawNodeA : RawNode :=
  { id := "1"
    label := some "Alice"
    node_type := "Officer"
    properties := [] }

/-- Sample raw relationship used in concrete instances. -/
def sampleRawEdgeA : RawEdge :=
  { id := "7"
    source := "1"
    target := "2"
    relationship_type := "DIRECTOR_OF"
    properties := [] }

/-- Sample query record presenting the same raw node twice. -/
def sampleGraphRecordDup : GraphRecord :=
  { nodes := [sampleRawNodeA, sampleRawNodeA]
    edges := [sampleRawEdgeA] }

/-- Connection graph produced for `sampleGraphRecordDup`. -/
def sampleConnectionGraph : ConnectionGraph :=
  { nodes := [parseGraphNode sampleRawNodeA]
    edges := [parseGraphEdge sampleRawEdgeA]
    center_node_id := toString (1 : Int)
    depth := 2
    node_count := 1
    edge_count := 1 }

/-- Sample offshore record used in concrete instances. -/
def sampleOffshoreRecord : OffshoreRecord :=
  { node_id := 5
    name := some "Shell Co"
    node_type := "Entity"
    countries := some "PA;KY"
    jurisdiction := none
    jurisdiction_description := none
    incorporation_date := none
    service_provider := none
    company_type := none
    status := none
    address := none
    source_dataset := none
    conn_count := 0
    connections := [] }

/-! Helper lemmas. -/

theorem acc_le_foldl_max (l : List Nat) (a : Nat) : a ≤ l.foldl Nat.max a := by
  induction l generalizing a with
  | nil => exact Nat.le_refl a
  | cons x xs ih =>
      exact Nat.le_trans (Nat.le_max_left a x) (ih (Nat.max a x))

theorem mem_le_foldl_max (l : List Nat) (a x : Nat) (hx : x ∈ l) :
    x ≤ l.foldl Nat.max a := by
  induction l generalizing a with
  | nil => cases hx
  | cons y ys ih =>
      rcases List.mem_cons.mp hx with rfl | h
      · exact Nat.le_trans (Nat.le_max_right a x) (acc_le_foldl_max ys (Nat.max a x))
      · exact ih (Nat.max a y) h

theorem foldl_max_or (l : List Nat) (a : Nat) :
    l.foldl Nat.max a ∈ l ∨ l.foldl Nat.max a = a := by
  induction l generalizing a with
  | nil => exact Or.inr rfl
  | cons x xs ih =>
      rcases ih (Nat.max a x) with h | h
      · exact Or.inl (List.mem_cons_of_mem _ h)
      · have hm : Nat.max a x = a ∨ Nat.max a x = x := max_choice a x
        rcases hm with hm | hm
        · exact Or.inr (by simpa [hm] using h)
        · rw [hm] at h
          exact Or.inl (by simp [List.foldl_cons, hm, h])

theorem foldl_max_mem (l : List Nat) (hl : l ≠ []) : l.foldl Nat.max 0 ∈ l := by
  rcases foldl_max_or l 0 with h | h
  · exact h
  · match l, hl with
    | x :: xs, _ =>
        have hx : x ≤ (x :: xs).foldl Nat.max 0 :=
          mem_le_foldl_max _ _ _ (List.mem_cons_self _ _)
        rw [h] at hx
        have hx0 : x = 0 := Nat.le_zero.mp hx
        rw [h, ← hx0]
        exact List.mem_cons_self _ _

theorem fuzzy_subst_mem (calculate_score : String → String → Nat)
    (query : String) (e : Entity) (hne : e.aliases ≠ []) :
    ∃ a ∈ e.aliases,
      (e.aliases.map (fun a => calculate_score query a)).foldl Nat.max 0 =
        calculate_score query a := by
  have hmapne : e.aliases.map (fun a => calculate_score query a) ≠ [] := by
    simpa using hne
  have hmem := foldl_max_mem _ hmapne
  rcases List.mem_map.mp hmem with ⟨a, ha, hval⟩
  exact ⟨a, ha, hval.symm⟩

theorem scoreEntity_some_fields (calculate_score : String → String → Nat)
    (search_type : String) (fuzzy_threshold : Nat) (query : String)
    (e e' : Entity)
    (h : scoreEntity calculate_score search_type fuzzy_threshold query e = some e') :
    e'.name = e.name ∧ e'.aliases = e.aliases ∧ e'.is_sanctioned = e.is_sanctioned := by
  simp only [scoreEntity] at h
  split_ifs at h
  all_goals first
    | exact Option.noConfusion h
    | (obtain rfl := (Option.some.inj h).symm; exact ⟨rfl, rfl, rfl⟩)

theorem scoreEntity_score_shape (calculate_score : String → String → Nat)
    (search_type : String) (fuzzy_threshold : Nat) (query : String)
    (e e' : Entity)
    (h : scoreEntity calculate_score search_type fuzzy_threshold query e = some e') :
    e'.match_score = calculate_score query e.name ∨ e'.match_score = 100 ∨
      ∃ a ∈ e.aliases, e'.match_score = calculate_score query a := by
  simp only [scoreEntity] at h
  split_ifs at h
  all_goals first
    | exact Option.noConfusion h
    | (obtain rfl := (Option.some.inj h).symm; simp; done)
    | (obtain rfl := (Option.some.inj h).symm
       by_cases hali : e.aliases = []
       · simp_all
       · right; right
         simpa using fuzzy_subst_mem calculate_score query e hali)

theorem mem_scoreResults (calculate_score : String → String → Nat)
    (query : String) (results : List Entity) (search_type : String)
    (fuzzy_threshold : Nat) (e' : Entity) :
    e' ∈ scoreResults calculate_score query results search_type fuzzy_threshold ↔
      ∃ e ∈ results,
        scoreEntity calculate_score search_type fuzzy_threshold query e = some e' := by
  simp [scoreResults, List.mem_filterMap]

theorem scoreResults_nil (calculate_score : String → String → Nat)
    (query : String) (search_type : String) (fuzzy_threshold : Nat) :
    scoreResults calculate_score query [] search_type fuzzy_threshold = [] := by
  simp [scoreResults]

/-! Claim theorems. -/

/-- C3: for every source dispatched through `search_source`, the call
returns a `(results, error)` pair and never propagates an exception past
that boundary: on success the error component is `none`; whenever the
underlying sanctions_io client raises (circuit breaker, timeout, HTTP
status, or any other exception), the pair is an empty result list together
with a non-empty descriptive error string. -/
theorem search_source_isolates_failures (timeoutSecs : Nat) (o : RequestOutcome) :
    (∀ results, o = .success results →
        searchSourceSanctionsIo timeoutSecs o = (results, none))
    ∧ ((∀ results, o ≠ .success results) →
        (searchSourceSanctionsIo timeoutSecs o).1 = [] ∧
          ∃ msg, (searchSourceSanctionsIo timeoutSecs o).2 = some msg ∧ msg ≠ "") := by
  have hlen : ∀ s t : String, s.length ≠ 0 → s ++ t ≠ "" := by
    intro s t hs heq
    have := congrArg String.length heq
    rw [String.length_append] at this
    simp at this
    omega
  cases o with
  | success results =>
      refine ⟨fun r hr => (by cases hr; rfl), fun habs => absurd rfl (habs results)⟩
  | circuitBreakerOpen =>
      exact ⟨fun r hr => RequestOutcome.noConfusion hr,
        fun _ => ⟨rfl, "Sanctions.io service circuit breaker open", rfl, (by decide)⟩⟩
  | timeout =>
      exact ⟨fun r hr => RequestOutcome.noConfusion hr,
        fun _ => ⟨rfl, "Request timed out", rfl, (by decide)⟩⟩
  | httpStatus code =>
      refine ⟨fun r hr => RequestOutcome.noConfusion hr, fun _ => ?_⟩
      by_cases h401 : code = 401
      · exact ⟨(by simp [searchSourceSanctionsIo, sanctionsIoSearch, search_source, h401]),
          "Sanctions.io API key is invalid",
          (by simp [searchSourceSanctionsIo, sanctionsIoSearch, search_source, h401]),
          (by decide)⟩
      · by_cases h429 : code = 429
        · exact ⟨(by simp [searchSourceSanctionsIo, sanctionsIoSearch, search_source, h401, h429]),
            "Sanctions.io rate limit exceeded. Please try again later.",
            (by simp [searchSourceSanctionsIo, sanctionsIoSearch, search_source, h401, h429]),
            (by decide)⟩
        · refine ⟨(by simp [searchSourceSanctionsIo, sanctionsIoSearch, search_source, h401, h429]),
            "Sanctions.io API error: " ++ toString code,
            (by simp [searchSourceSanctionsIo, sanctionsIoSearch, search_source, h401, h429]),
            hlen _ _ (by decide)⟩
  | failure message =>
      exact ⟨fun r hr => RequestOutcome.noConfusion hr,
        fun _ => ⟨rfl, "Unexpected error: " ++ message, rfl, hlen _ _ (by decide)⟩⟩

/-- Witness for C3 at a concrete failing call. -/
theorem search_source_isolates_failures_witness :
    (searchSourceSanctionsIo 30 .timeout).1 = [] ∧
      ∃ msg, (searchSourceSanctionsIo 30 .timeout).2 = some msg ∧ msg ≠ "" :=
  (search_source_isolates_failures 30 .timeout).2 (fun _ h => by cases h)

/-- C4: in exact mode an entity is kept by the aggregator's scoring loop
if and only if the query scores exactly 100 against its primary name or
exactly 100 against some alias; when only an alias matched exactly, the
entity's `match_score` is forced to 100. -/
theorem exact_mode_keeps_iff_exact_match
    (calculate_score : String → String → Nat)
    (hcalc : ∀ q c, calculate_score q c ≤ 100)
    (fuzzy_threshold : Nat) (query : String) (e : Entity) :
    ((scoreEntity calculate_score "exact" fuzzy_threshold query e).isSome = true ↔
      (calculate_score query e.name = 100 ∨
        ∃ a ∈ e.aliases, calculate_score query a = 100))
    ∧ (∀ e', scoreEntity calculate_score "exact" fuzzy_threshold query e = some e' →
        calculate_score query e.name ≠ 100 → e'.match_score = 100) := by
  have hunfold : scoreEntity calculate_score "exact" fuzzy_threshold query e =
      if calculate_score query e.name < 100 then
        (if (e.aliases.map (fun a => calculate_score query a)).any (fun s => s = 100) then
          some { e with match_score := 100 }
        else none)
      else some { e with match_score := calculate_score query e.name } := by
    simp [scoreEntity]
  by_cases hlt : calculate_score query e.name < 100
  · by_cases hany :
        (e.aliases.map (fun a => calculate_score query a)).any (fun s => s = 100) = true
    · have hex : ∃ a ∈ e.aliases, calculate_score query a = 100 := by
        simpa using hany
      refine ⟨by simp [hunfold, hlt, hany, hex], ?_⟩
      intro e' he' _
      rw [hunfold, if_pos hlt, if_pos hany] at he'
      cases he'; rfl
    · have hnex : ¬∃ a ∈ e.aliases, calculate_score query a = 100 := by
        simpa using hany
      have hne : calculate_score query e.name ≠ 100 := by omega
      refine ⟨by simp [hunfold, hlt, hany, hne, hnex], ?_⟩
      intro e' he'
      rw [hunfold, if_pos hlt, if_neg (by simpa using hany)] at he'
      cases he'
  · have h100 : calculate_score query e.name = 100 := by
      have := hcalc query e.name
      omega
    refine ⟨by simp [hunfold, hlt, h100], ?_⟩
    intro e' he' hne
    exact absurd h100 hne

/-- Witness for C4 at a concrete scorer and entity. -/
theorem exact_mode_keeps_iff_exact_match_witness :
    ((scoreEntity (fun _ _ => 100) "exact" 80 "x"
        { name := "x", aliases := [], is_sanctioned := false, match_score := 0 }).isSome = true ↔
      ((fun (_ _ : String) => 100) "x" "x" = 100 ∨
        ∃ a ∈ ([] : List String), (fun (_ _ : String) => 100) "x" a = 100))
    ∧ (∀ e', scoreEntity (fun _ _ => 100) "exact" 80 "x"
        { name := "x", aliases := [], is_sanctioned := false, match_score := 0 } = some e' →
        (fun (_ _ : String) => 100) "x" "x" ≠ 100 → e'.match_score = 100) :=
  exact_mode_keeps_iff_exact_match (fun _ _ => 100) (fun _ _ => Nat.le_refl 100) 80 "x"
    { name := "x", aliases := [], is_sanctioned := false, match_score := 0 }

/-- C5: in fuzzy mode an entity whose primary-name score clears the
threshold is kept with that score; otherwise, when it has at least one
alias, the maximum alias score is substituted before the threshold check
and the entity is kept exactly when that substituted score clears the
threshold; with no alias and a primary score below the threshold it is
dropped. -/
theorem fuzzy_mode_threshold_with_alias_substitution
    (calculate_score : String → String → Nat)
    (fuzzy_threshold : Nat) (query : String) (e : Entity) :
    (fuzzy_threshold ≤ calculate_score query e.name →
        scoreEntity calculate_score "fuzzy" fuzzy_threshold query e =
          some { e with match_score := calculate_score query e.name })
    ∧ (calculate_score query e.name < fuzzy_threshold → e.aliases ≠ [] →
        scoreEntity calculate_score "fuzzy" fuzzy_threshold query e =
          (if fuzzy_threshold ≤ (e.aliases.map (fun a => calculate_score query a)).foldl Nat.max 0 then
            some { e with match_score :=
              (e.aliases.map (fun a => calculate_score query a)).foldl Nat.max 0 }
          else none))
    ∧ (calculate_score query e.name < fuzzy_threshold → e.aliases = [] →
        scoreEntity calculate_score "fuzzy" fuzzy_threshold query e = none) := by
  refine ⟨fun hge => ?_, fun hlt hne => ?_, fun hlt hnil => ?_⟩
  · have : ¬calculate_score query e.name < fuzzy_threshold := by omega
    simp [scoreEntity, this]
  · have hmapne : ¬(e.aliases.map (fun a => calculate_score query a)).isEmpty := by
      simp [List.isEmpty_iff, hne]
    by_cases hth :
        fuzzy_threshold ≤ (e.aliases.map (fun a => calculate_score query a)).foldl Nat.max 0
    · have : ¬(e.aliases.map (fun a => calculate_score query a)).foldl Nat.max 0 < fuzzy_threshold := by
        omega
      simp [scoreEntity, hlt, hmapne, hth, this]
    · have : (e.aliases.map (fun a => calculate_score query a)).foldl Nat.max 0 < fuzzy_threshold := by
        omega
      simp [scoreEntity, hlt, hmapne, hth, this]
  · simp [scoreEntity, hlt, hnil]

/-- Witness for C5 at a concrete scorer and entity. -/
theorem fuzzy_mode_threshold_with_alias_substitution_witness :
    scoreEntity (fun _ c => if c = "putin" then 95 else 10) "fuzzy" 80 "q"
        { name := "x", aliases := ["putin"], is_sanctioned := true, match_score := 0 } =
      (if (80 : Nat) ≤ ((["putin"] : List String).map
            (fun a => if a = "putin" then 95 else 10)).foldl Nat.max 0 then
        some { name := "x", aliases := ["putin"], is_sanctioned := true,
               match_score := ((["putin"] : List String).map
                 (fun a => if a = "putin" then 95 else 10)).foldl Nat.max 0 }
      else none) :=
  ((fuzzy_mode_threshold_with_alias_substitution
      (fun _ c => if c = "putin" then 95 else 10) 80 "q"
      { name := "x", aliases := ["putin"], is_sanctioned := true, match_score := 0 }).2.1
    (by decide) (by decide))

theorem aggregate_os_results (cs : String → String → Nat) (t : Nat) (q st : String)
    (os si : List Entity) (oe se : Option String) (off : Option (List Entity))
    (offe : Option String) (req : Option (List String)) :
    (aggregate cs t q st os si oe se off offe req).results_by_source.opensanctions.results =
      scoreResults cs q os st t := rfl

theorem aggregate_si_results (cs : String → String → Nat) (t : Nat) (q st : String)
    (os si : List Entity) (oe se : Option String) (off : Option (List Entity))
    (offe : Option String) (req : Option (List String)) :
    (aggregate cs t q st os si oe se off offe req).results_by_source.sanctions_io.results =
      scoreResults cs q si st t := rfl

theorem aggregate_off_results (cs : String → String → Nat) (t : Nat) (q st : String)
    (os si : List Entity) (oe se : Option String) (off : Option (List Entity))
    (offe : Option String) (req : Option (List String)) :
    (aggregate cs t q st os si oe se off offe req).results_by_source.offshore_leaks.results =
      off.getD [] := rfl

theorem aggregate_all_results (cs : String → String → Nat) (t : Nat) (q st : String)
    (os si : List Entity) (oe se : Option String) (off : Option (List Entity))
    (offe : Option String) (req : Option (List String)) :
    (aggregate cs t q st os si oe se off offe req).all_results =
      (scoreResults cs q os st t ++ scoreResults cs q si st t).mergeSort
        sanctionedScoreDescLe := rfl

theorem scoreResults_entity_origin (cs : String → String → Nat) (t : Nat)
    (q st : String) (results : List Entity) (e : Entity)
    (h : e ∈ scoreResults cs q results st t) :
    e.match_score = cs q e.name ∨ e.match_score = 100 ∨
      ∃ a ∈ e.aliases, e.match_score = cs q a := by
  obtain ⟨orig, _, horig⟩ := (mem_scoreResults cs q results st t e).mp h
  obtain ⟨hn, ha, _⟩ := scoreEntity_some_fields cs st t q orig e horig
  have hs := scoreEntity_score_shape cs st t q orig e horig
  rw [← hn, ← ha] at hs
  exact hs

theorem sanctionedScoreDescLe_trans (a b c : Entity)
    (hab : sanctionedScoreDescLe a b = true)
    (hbc : sanctionedScoreDescLe b c = true) :
    sanctionedScoreDescLe a c = true := by
  simp only [sanctionedScoreDescLe, Bool.or_eq_true, Bool.and_eq_true,
    decide_eq_true_eq] at hab hbc ⊢
  cases ha : a.is_sanctioned <;> cases hb : b.is_sanctioned <;> cases hc : c.is_sanctioned <;>
    simp_all <;> omega

theorem sanctionedScoreDescLe_total (a b : Entity) :
    (sanctionedScoreDescLe a b || sanctionedScoreDescLe b a) = true := by
  simp only [sanctionedScoreDescLe, Bool.or_eq_true, Bool.and_eq_true,
    decide_eq_true_eq]
  cases ha : a.is_sanctioned <;> cases hb : b.is_sanctioned <;> simp_all <;> omega

theorem sanctionedScoreDescLe_of_key_eq (a b : Entity)
    (h1 : a.is_sanctioned = b.is_sanctioned) (h2 : a.match_score = b.match_score) :
    sanctionedScoreDescLe a b = true := by
  simp [sanctionedScoreDescLe, h1, h2]

theorem mem_ite_singleton_append (s a : String) (c : Prop) [Decidable c]
    (l : List String) :
    s ∈ (if c then [a] else []) ++ l ↔ (c ∧ s = a) ∨ s ∈ l := by
  split_ifs with h <;> simp [h]

/-- C1 counterexample: an offshore_leaks entity leaves
`ResultAggregator.aggregate` inside its bucket with the match_score its
source self-reported (42), even though the aggregator's scorer — here the
constant-0 function — would have recomputed a different value and no exact
alias match forced 100. -/
theorem offshore_bucket_keeps_source_score_counterexample :
    ∃ e ∈ (aggregate (fun _ _ => 0) 80 "q" "fuzzy" [] [] none none
        (some [{ name := "x", aliases := [], is_sanctioned := false, match_score := 42 }])
        none (some ["offshore_leaks"])).results_by_source.offshore_leaks.results,
      e.match_score = 42 ∧ (fun (_ _ : String) => (0 : Nat)) "q" e.name = 0 ∧
        e.match_score ≠ 100 := by
  refine ⟨{ name := "x", aliases := [], is_sanctioned := false, match_score := 42 },
    ?_, rfl, rfl, (by decide)⟩
  rw [aggregate_off_results]
  exact List.mem_singleton.mpr rfl

/-- C1 (amended): every entity in the opensanctions bucket, the
sanctions_io bucket, and all_results leaves `aggregate` with a match_score
recomputed by the aggregator's scorer (the query scored against its
primary name, forced to 100, or the query scored against one of its
aliases); entities in the offshore_leaks bucket are passed through
unchanged with their source-reported scores and are never rescored. -/
theorem aggregate_rescores_all_but_offshore
    (cs : String → String → Nat) (t : Nat) (q st : String)
    (os si : List Entity) (oe se : Option String) (off : Option (List Entity))
    (offe : Option String) (req : Option (List String)) :
    (∀ e, (e ∈ (aggregate cs t q st os si oe se off offe req).results_by_source.opensanctions.results ∨
           e ∈ (aggregate cs t q st os si oe se off offe req).results_by_source.sanctions_io.results ∨
           e ∈ (aggregate cs t q st os si oe se off offe req).all_results) →
        e.match_score = cs q e.name ∨ e.match_score = 100 ∨
          ∃ a ∈ e.aliases, e.match_score = cs q a)
    ∧ (aggregate cs t q st os si oe se off offe req).results_by_source.offshore_leaks.results =
        off.getD [] := by
  refine ⟨?_, aggregate_off_results cs t q st os si oe se off offe req⟩
  intro e he
  rw [aggregate_os_results, aggregate_si_results, aggregate_all_results] at he
  rcases he with h | h | h
  · exact scoreResults_entity_origin cs t q st os e h
  · exact scoreResults_entity_origin cs t q st si e h
  · rw [List.mem_mergeSort] at h
    rcases List.mem_append.mp h with h' | h'
    · exact scoreResults_entity_origin cs t q st os e h'
    · exact scoreResults_entity_origin cs t q st si e h'

/-- Witness for C1 (amended) at a concrete aggregation in which an entity
survives fuzzy scoring (scorer 90, threshold 80) and an offshore entity is
passed through: the rescoring disjunction is applied to the surviving
bucket member and the offshore bucket is the non-empty passthrough. -/
theorem aggregate_rescores_all_but_offshore_witness :
    ({ name := "n", aliases := [], is_sanctioned := true, match_score := 90 } : Entity) ∈
        (aggregate (fun _ _ => 90) 80 "q" "fuzzy"
          [{ name := "n", aliases := [], is_sanctioned := true, match_score := 3 }] []
          none none
          (some [{ name := "x", aliases := [], is_sanctioned := false, match_score := 42 }])
          none none).results_by_source.opensanctions.results
    ∧ ((90 : Nat) = (fun (_ _ : String) => (90 : Nat)) "q" "n" ∨ (90 : Nat) = 100 ∨
        ∃ a ∈ ([] : List String), (90 : Nat) = (fun (_ _ : String) => (90 : Nat)) "q" a)
    ∧ (aggregate (fun _ _ => 90) 80 "q" "fuzzy"
          [{ name := "n", aliases := [], is_sanctioned := true, match_score := 3 }] []
          none none
          (some [{ name := "x", aliases := [], is_sanctioned := false, match_score := 42 }])
          none none).results_by_source.offshore_leaks.results =
        [{ name := "x", aliases := [], is_sanctioned := false, match_score := 42 }] := by
  have hmem :
      ({ name := "n", aliases := [], is_sanctioned := true, match_score := 90 } : Entity) ∈
        (aggregate (fun _ _ => 90) 80 "q" "fuzzy"
          [{ name := "n", aliases := [], is_sanctioned := true, match_score := 3 }] []
          none none
          (some [{ name := "x", aliases := [], is_sanctioned := false, match_score := 42 }])
          none none).results_by_source.opensanctions.results := by
    rw [aggregate_os_results]
    simp [scoreResults, scoreEntity]
  have happ := aggregate_rescores_all_but_offshore (fun _ _ => 90) 80 "q" "fuzzy"
    [{ name := "n", aliases := [], is_sanctioned := true, match_score := 3 }] []
    none none
    (some [{ name := "x", aliases := [], is_sanctioned := false, match_score := 42 }])
    none none
  exact ⟨hmem, happ.1 _ (Or.inl hmem), happ.2⟩

/-- C2 counterexample: with all three sources requested and only
offshore_leaks returning an entity, all_results comes back empty even
though the offshore bucket holds that entity — offshore_leaks kept
entities are not part of the concatenation behind all_results. -/
theorem all_results_omits_offshore_counterexample :
    (aggregate (fun _ _ => 0) 80 "q" "fuzzy" [] [] none none
        (some [{ name := "x", aliases := [], is_sanctioned := true, match_score := 90 }])
        none (some ["opensanctions", "sanctions_io", "offshore_leaks"])).all_results = []
    ∧ (aggregate (fun _ _ => 0) 80 "q" "fuzzy" [] [] none none
        (some [{ name := "x", aliases := [], is_sanctioned := true, match_score := 90 }])
        none (some ["opensanctions", "sanctions_io", "offshore_leaks"])).results_by_source.offshore_leaks.results =
      [{ name := "x", aliases := [], is_sanctioned := true, match_score := 90 }] := by
  constructor
  · rw [aggregate_all_results]
    simp [scoreResults_nil]
  · rw [aggregate_off_results]
    rfl

/-- C2 (amended): all_results is exactly the stable sort, by
(is_sanctioned descending, match_score descending), of the concatenation
of the opensanctions and sanctions_io kept (scored, filtered, per-source
sorted) entities — offshore_leaks entities never enter all_results; it is
a permutation of that concatenation, it is sorted by the key, and entities
equal on the key keep the relative order the concatenation produced (for
every key value, filtering all_results for that key gives exactly the
concatenation's sublist for that key, in order). -/
theorem all_results_stable_sorted_concat
    (cs : String → String → Nat) (t : Nat) (q st : String)
    (os si : List Entity) (oe se : Option String) (off : Option (List Entity))
    (offe : Option String) (req : Option (List String)) :
    (aggregate cs t q st os si oe se off offe req).all_results.Perm
        (scoreResults cs q os st t ++ scoreResults cs q si st t)
    ∧ (aggregate cs t q st os si oe se off offe req).all_results.Pairwise
        (fun a b => sanctionedScoreDescLe a b = true)
    ∧ (∀ sanc : Bool, ∀ score : Nat,
        (aggregate cs t q st os si oe se off offe req).all_results.filter
            (fun e => e.is_sanctioned = sanc ∧ e.match_score = score) =
          (scoreResults cs q os st t ++ scoreResults cs q si st t).filter
            (fun e => e.is_sanctioned = sanc ∧ e.match_score = score)) := by
  rw [aggregate_all_results]
  refine ⟨List.mergeSort_perm _ _, ?_, ?_⟩
  · exact List.sorted_mergeSort
      (fun a b c hab hbc => sanctionedScoreDescLe_trans a b c hab hbc)
      (fun a b => sanctionedScoreDescLe_total a b) _
  · intro sanc score
    set L := scoreResults cs q os st t ++ scoreResults cs q si st t with hL
    set p : Entity → Bool := fun e => decide (e.is_sanctioned = sanc ∧ e.match_score = score)
      with hp
    have hmemp : ∀ x, p x = true → x.is_sanctioned = sanc ∧ x.match_score = score := by
      intro x hx
      simpa [hp] using hx
    have hS_pair : (L.filter p).Pairwise (fun a b => sanctionedScoreDescLe a b = true) := by
      have hforall : ∀ a ∈ L.filter p, ∀ b ∈ L.filter p, sanctionedScoreDescLe a b = true := by
        intro a ha b hb
        obtain ⟨-, hpa⟩ := List.mem_filter.mp ha
        obtain ⟨-, hpb⟩ := List.mem_filter.mp hb
        obtain ⟨ha1, ha2⟩ := hmemp a hpa
        obtain ⟨hb1, hb2⟩ := hmemp b hpb
        exact sanctionedScoreDescLe_of_key_eq a b (ha1.trans hb1.symm) (ha2.trans hb2.symm)
      exact List.pairwise_of_forall_mem_list hforall
    have hsubR : List.Sublist (L.filter p) (L.mergeSort sanctionedScoreDescLe) :=
      List.sublist_mergeSort
        (fun a b c hab hbc => sanctionedScoreDescLe_trans a b c hab hbc)
        (fun a b => sanctionedScoreDescLe_total a b)
        hS_pair (List.filter_sublist L)
    have hperm : ((L.mergeSort sanctionedScoreDescLe).filter p).Perm (L.filter p) :=
      (List.mergeSort_perm L sanctionedScoreDescLe).filter p
    have hfsub : List.Sublist ((L.filter p).filter p)
        ((L.mergeSort sanctionedScoreDescLe).filter p) :=
      hsubR.filter p
    rw [List.filter_filter] at hfsub
    have hself : L.filter (fun a => p a && p a) = L.filter p := by
      simp
    rw [hself] at hfsub
    have hlen : (L.filter p).length = ((L.mergeSort sanctionedScoreDescLe).filter p).length :=
      (hperm.length_eq).symm
    exact (hfsub.eq_of_length hlen).symm

/-- Witness for C2 (amended) at a concrete aggregation. -/
theorem all_results_stable_sorted_concat_witness :
    (aggregate (fun _ _ => 90) 80 "q" "fuzzy"
        [{ name := "n", aliases := [], is_sanctioned := true, match_score := 3 }] []
        none none none none none).all_results.Perm
        (scoreResults (fun _ _ => 90) "q"
            [{ name := "n", aliases := [], is_sanctioned := true, match_score := 3 }] "fuzzy" 80 ++
          scoreResults (fun _ _ => 90) "q" [] "fuzzy" 80)
    ∧ (aggregate (fun _ _ => 90) 80 "q" "fuzzy"
        [{ name := "n", aliases := [], is_sanctioned := true, match_score := 3 }] []
        none none none none none).all_results.Pairwise
        (fun a b => sanctionedScoreDescLe a b = true)
    ∧ (∀ sanc : Bool, ∀ score : Nat,
        (aggregate (fun _ _ => 90) 80 "q" "fuzzy"
            [{ name := "n", aliases := [], is_sanctioned := true, match_score := 3 }] []
            none none none none none).all_results.filter
            (fun e => e.is_sanctioned = sanc ∧ e.match_score = score) =
          (scoreResults (fun _ _ => 90) "q"
              [{ name := "n", aliases := [], is_sanctioned := true, match_score := 3 }] "fuzzy" 80 ++
            scoreResults (fun _ _ => 90) "q" [] "fuzzy" 80).filter
            (fun e => e.is_sanctioned = sanc ∧ e.match_score = score)) :=
  all_results_stable_sorted_concat (fun _ _ => 90) 80 "q" "fuzzy"
    [{ name := "n", aliases := [], is_sanctioned := true, match_score := 3 }] []
    none none none none none

theorem aggregate_sources_searched (cs : String → String → Nat) (t : Nat) (q st : String)
    (os si : List Entity) (oe se : Option String) (off : Option (List Entity))
    (offe : Option String) (req : Option (List String)) :
    (aggregate cs t q st os si oe se off offe req).sources_searched =
      sourcesOrDefault req := rfl

theorem aggregate_sources_succeeded (cs : String → String → Nat) (t : Nat) (q st : String)
    (os si : List Entity) (oe se : Option String) (off : Option (List Entity))
    (offe : Option String) (req : Option (List String)) :
    (aggregate cs t q st os si oe se off offe req).sources_succeeded =
      (if "opensanctions" ∈ sourcesOrDefault req ∧ ¬strTruthy oe then
        ["opensanctions"] else []) ++
      (if "sanctions_io" ∈ sourcesOrDefault req ∧ ¬strTruthy se then
        ["sanctions_io"] else []) ++
      (if "offshore_leaks" ∈ sourcesOrDefault req ∧ ¬strTruthy offe then
        ["offshore_leaks"] else []) := rfl

theorem aggregate_sources_failed (cs : String → String → Nat) (t : Nat) (q st : String)
    (os si : List Entity) (oe se : Option String) (off : Option (List Entity))
    (offe : Option String) (req : Option (List String)) :
    (aggregate cs t q st os si oe se off offe req).sources_failed =
      (if "opensanctions" ∈ sourcesOrDefault req ∧ strTruthy oe then
        ["opensanctions"] else []) ++
      (if "sanctions_io" ∈ sourcesOrDefault req ∧ strTruthy se then
        ["sanctions_io"] else []) ++
      (if "offshore_leaks" ∈ sourcesOrDefault req ∧ strTruthy offe then
        ["offshore_leaks"] else []) := rfl

theorem aggregate_os_bucket (cs : String → String → Nat) (t : Nat) (q st : String)
    (os si : List Entity) (oe se : Option String) (off : Option (List Entity))
    (offe : Option String) (req : Option (List String)) :
    (aggregate cs t q st os si oe se off offe req).results_by_source.opensanctions =
      { found := 0 < (scoreResults cs q os st t).length
        count := (scoreResults cs q os st t).length
        sanctioned_count := (scoreResults cs q os st t).countP (fun e => e.is_sanctioned)
        error := oe
        results := scoreResults cs q os st t } := rfl

theorem aggregate_si_bucket (cs : String → String → Nat) (t : Nat) (q st : String)
    (os si : List Entity) (oe se : Option String) (off : Option (List Entity))
    (offe : Option String) (req : Option (List String)) :
    (aggregate cs t q st os si oe se off offe req).results_by_source.sanctions_io =
      { found := 0 < (scoreResults cs q si st t).length
        count := (scoreResults cs q si st t).length
        sanctioned_count := (scoreResults cs q si st t).countP (fun e => e.is_sanctioned)
        error := se
        results := scoreResults cs q si st t } := rfl

theorem aggregate_off_bucket (cs : String → String → Nat) (t : Nat) (q st : String)
    (os si : List Entity) (oe se : Option String) (off : Option (List Entity))
    (offe : Option String) (req : Option (List String)) :
    (aggregate cs t q st os si oe se off offe req).results_by_source.offshore_leaks =
      { found := 0 < (off.getD []).length
        count := (off.getD []).length
        sanctioned_count := 0
        error := offe
        results := off.getD [] } := rfl

theorem mem_ite_singleton (s a : String) (c : Prop) [Decidable c] :
    s ∈ (if c then [a] else []) ↔ c ∧ s = a := by
  split_ifs with h <;> simp [h]

/-- C6: for every call to `aggregate` and every requested source, the
source is listed in sources_failed exactly when its error argument is a
non-empty string, and in sources_succeeded exactly when it is not —
independent of how many results it returned; a requested source with an
empty result list and no error counts as succeeded with found = false and
count = 0; no source lands in both lists. -/
theorem requested_source_succeeds_xor_fails
    (cs : String → String → Nat) (t : Nat) (q st : String)
    (os si : List Entity) (oe se : Option String) (off : Option (List Entity))
    (offe : Option String) (req : Option (List String)) (src : String)
    (hsrc : src = "opensanctions" ∨ src = "sanctions_io" ∨ src = "offshore_leaks") :
    (src ∈ (aggregate cs t q st os si oe se off offe req).sources_failed ↔
        src ∈ (aggregate cs t q st os si oe se off offe req).sources_searched ∧
          strTruthy (sourceErrorArg src oe se offe) = true)
    ∧ (src ∈ (aggregate cs t q st os si oe se off offe req).sources_succeeded ↔
        src ∈ (aggregate cs t q st os si oe se off offe req).sources_searched ∧
          strTruthy (sourceErrorArg src oe se offe) = false)
    ∧ (sourceRawArg src os si off = [] → sourceErrorArg src oe se offe = none →
        (sourceBucket src (aggregate cs t q st os si oe se off offe req)).found = false ∧
        (sourceBucket src (aggregate cs t q st os si oe se off offe req)).count = 0 ∧
        (src ∈ (aggregate cs t q st os si oe se off offe req).sources_searched →
          src ∈ (aggregate cs t q st os si oe se off offe req).sources_succeeded ∧
            src ∉ (aggregate cs t q st os si oe se off offe req).sources_failed)) := by
  rcases hsrc with rfl | rfl | rfl
  · refine ⟨?_, ?_, ?_⟩
    · rw [aggregate_sources_failed, aggregate_sources_searched]
      simp [List.append_assoc, mem_ite_singleton_append, mem_ite_singleton, sourceErrorArg]
    · rw [aggregate_sources_succeeded, aggregate_sources_searched]
      simp [List.append_assoc, mem_ite_singleton_append, mem_ite_singleton, sourceErrorArg]
    · intro hraw herr
      rw [sourceRawArg, if_pos rfl] at hraw
      rw [sourceErrorArg, if_pos rfl] at herr
      subst hraw
      subst herr
      refine ⟨?_, ?_, ?_⟩
      · rw [sourceBucket, if_pos rfl, aggregate_os_bucket]
        simp [scoreResults_nil]
      · rw [sourceBucket, if_pos rfl, aggregate_os_bucket]
        simp [scoreResults_nil]
      · intro hmem
        rw [aggregate_sources_searched] at hmem
        rw [aggregate_sources_succeeded, aggregate_sources_failed]
        simp [List.append_assoc, mem_ite_singleton_append, mem_ite_singleton, strTruthy, hmem]
  · refine ⟨?_, ?_, ?_⟩
    · rw [aggregate_sources_failed, aggregate_sources_searched]
      simp [List.append_assoc, mem_ite_singleton_append, mem_ite_singleton, sourceErrorArg]
    · rw [aggregate_sources_succeeded, aggregate_sources_searched]
      simp [List.append_assoc, mem_ite_singleton_append, mem_ite_singleton, sourceErrorArg]
    · intro hraw herr
      rw [sourceRawArg] at hraw
      rw [sourceErrorArg] at herr
      simp only [String.reduceEq, if_false, if_pos rfl, reduceIte] at hraw herr
      subst hraw
      subst herr
      refine ⟨?_, ?_, ?_⟩
      · rw [sourceBucket]
        simp only [String.reduceEq, reduceIte]
        rw [aggregate_si_bucket]
        simp [scoreResults_nil]
      · rw [sourceBucket]
        simp only [String.reduceEq, reduceIte]
        rw [aggregate_si_bucket]
        simp [scoreResults_nil]
      · intro hmem
        rw [aggregate_sources_searched] at hmem
        rw [aggregate_sources_succeeded, aggregate_sources_failed]
        simp [List.append_assoc, mem_ite_singleton_append, mem_ite_singleton, strTruthy, hmem]
  · refine ⟨?_, ?_, ?_⟩
    · rw [aggregate_sources_failed, aggregate_sources_searched]
      simp [List.append_assoc, mem_ite_singleton_append, mem_ite_singleton, sourceErrorArg]
    · rw [aggregate_sources_succeeded, aggregate_sources_searched]
      simp [List.append_assoc, mem_ite_singleton_append, mem_ite_singleton, sourceErrorArg]
    · intro hraw herr
      rw [sourceRawArg] at hraw
      rw [sourceErrorArg] at herr
      simp only [String.reduceEq, if_false, reduceIte] at hraw herr
      subst herr
      refine ⟨?_, ?_, ?_⟩
      · rw [sourceBucket]
        simp only [String.reduceEq, reduceIte]
        rw [aggregate_off_bucket]
        simp [hraw]
      · rw [sourceBucket]
        simp only [String.reduceEq, reduceIte]
        rw [aggregate_off_bucket]
        simp [hraw]
      · intro hmem
        rw [aggregate_sources_searched] at hmem
        rw [aggregate_sources_succeeded, aggregate_sources_failed]
        simp [List.append_assoc, mem_ite_singleton_append, mem_ite_singleton, strTruthy, hmem]

/-- Witness for C6 at a concrete aggregation with a failing source. -/
theorem requested_source_succeeds_xor_fails_witness :
    ("sanctions_io" ∈ (aggregate (fun _ _ => 0) 80 "q" "fuzzy" [] [] none (some "boom")
          none none (some ["sanctions_io"])).sources_failed ↔
        "sanctions_io" ∈ (aggregate (fun _ _ => 0) 80 "q" "fuzzy" [] [] none (some "boom")
          none none (some ["sanctions_io"])).sources_searched ∧
          strTruthy (sourceErrorArg "sanctions_io" none (some "boom") none) = true)
    ∧ ("sanctions_io" ∈ (aggregate (fun _ _ => 0) 80 "q" "fuzzy" [] [] none (some "boom")
          none none (some ["sanctions_io"])).sources_succeeded ↔
        "sanctions_io" ∈ (aggregate (fun _ _ => 0) 80 "q" "fuzzy" [] [] none (some "boom")
          none none (some ["sanctions_io"])).sources_searched ∧
          strTruthy (sourceErrorArg "sanctions_io" none (some "boom") none) = false)
    ∧ (sourceRawArg "sanctions_io" [] [] none = [] →
        sourceErrorArg "sanctions_io" none (some "boom") none = none →
        (sourceBucket "sanctions_io" (aggregate (fun _ _ => 0) 80 "q" "fuzzy" [] [] none
          (some "boom") none none (some ["sanctions_io"]))).found = false ∧
        (sourceBucket "sanctions_io" (aggregate (fun _ _ => 0) 80 "q" "fuzzy" [] [] none
          (some "boom") none none (some ["sanctions_io"]))).count = 0 ∧
        ("sanctions_io" ∈ (aggregate (fun _ _ => 0) 80 "q" "fuzzy" [] [] none (some "boom")
            none none (some ["sanctions_io"])).sources_searched →
          "sanctions_io" ∈ (aggregate (fun _ _ => 0) 80 "q" "fuzzy" [] [] none (some "boom")
            none none (some ["sanctions_io"])).sources_succeeded ∧
            "sanctions_io" ∉ (aggregate (fun _ _ => 0) 80 "q" "fuzzy" [] [] none (some "boom")
              none none (some ["sanctions_io"])).sources_failed)) :=
  requested_source_succeeds_xor_fails (fun _ _ => 0) 80 "q" "fuzzy" [] [] none (some "boom")
    none none (some ["sanctions_io"]) "sanctions_io" (Or.inr (Or.inl rfl))

theorem dedupByKeyAux_not_mem_seen {α κ : Type} [DecidableEq κ] (key : α → κ) :
    ∀ (l : List α) (seen : List κ) (x : α),
      x ∈ dedupByKeyAux key seen l → key x ∉ seen := by
  intro l
  induction l with
  | nil => intro seen x hx; simp [dedupByKeyAux] at hx
  | cons y rest ih =>
      intro seen x hx
      simp only [dedupByKeyAux] at hx
      by_cases h : key y ∈ seen
      · rw [if_pos h] at hx
        exact ih seen x hx
      · rw [if_neg h] at hx
        rcases List.mem_cons.mp hx with rfl | hx2
        · exact h
        · intro hmem
          exact ih (key y :: seen) x hx2 (List.mem_cons_of_mem _ hmem)

theorem dedupByKeyAux_pairwise {α κ : Type} [DecidableEq κ] (key : α → κ) :
    ∀ (l : List α) (seen : List κ),
      (dedupByKeyAux key seen l).Pairwise (fun a b => key a ≠ key b) := by
  intro l
  induction l with
  | nil => intro seen; simp [dedupByKeyAux]
  | cons y rest ih =>
      intro seen
      simp only [dedupByKeyAux]
      by_cases h : key y ∈ seen
      · rw [if_pos h]
        exact ih seen
      · rw [if_neg h]
        refine List.Pairwise.cons ?_ (ih (key y :: seen))
        intro b hb hkey
        exact dedupByKeyAux_not_mem_seen key rest (key y :: seen) b hb
          (hkey ▸ List.mem_cons_self _ _)

theorem dedupByKeyAux_find {α κ : Type} [DecidableEq κ] (key : α → κ) :
    ∀ (l : List α) (seen : List κ) (x : α),
      x ∈ dedupByKeyAux key seen l →
      l.find? (fun m => decide (key m = key x)) = some x := by
  intro l
  induction l with
  | nil => intro seen x hx; simp [dedupByKeyAux] at hx
  | cons y rest ih =>
      intro seen x hx
      simp only [dedupByKeyAux] at hx
      by_cases h : key y ∈ seen
      · rw [if_pos h] at hx
        have hne : key y ≠ key x := by
          intro he
          exact dedupByKeyAux_not_mem_seen key rest seen x hx (he ▸ h)
        rw [List.find?_cons_of_neg _ (by simp [hne])]
        exact ih seen x hx
      · rw [if_neg h] at hx
        rcases List.mem_cons.mp hx with rfl | hx2
        · exact List.find?_cons_of_pos _ (by simp)
        · have hnotin := dedupByKeyAux_not_mem_seen key rest (key y :: seen) x hx2
          have hne : key y ≠ key x := by
            intro he
            exact hnotin (he ▸ List.mem_cons_self _ _)
          rw [List.find?_cons_of_neg _ (by simp [hne])]
          exact ih (key y :: seen) x hx2

theorem mem_seenAfter {α κ : Type} [DecidableEq κ] (key : α → κ) :
    ∀ (l : List α) (seen : List κ) (k : κ),
      k ∈ seenAfter key seen l ↔ k ∈ seen ∨ ∃ y ∈ l, key y = k := by
  intro l
  induction l with
  | nil => intro seen k; simp [seenAfter]
  | cons y rest ih =>
      intro seen k
      simp only [seenAfter]
      by_cases h : key y ∈ seen
      · rw [if_pos h, ih]
        constructor
        · rintro (hk | ⟨z, hz, hzk⟩)
          · exact Or.inl hk
          · exact Or.inr ⟨z, List.mem_cons_of_mem _ hz, hzk⟩
        · rintro (hk | ⟨z, hz, hzk⟩)
          · exact Or.inl hk
          · rcases List.mem_cons.mp hz with rfl | hz2
            · exact Or.inl (hzk ▸ h)
            · exact Or.inr ⟨z, hz2, hzk⟩
      · rw [if_neg h, ih]
        constructor
        · rintro (hk | ⟨z, hz, hzk⟩)
          · rcases List.mem_cons.mp hk with rfl | hk2
            · exact Or.inr ⟨y, List.mem_cons_self _ _, rfl⟩
            · exact Or.inl hk2
          · exact Or.inr ⟨z, List.mem_cons_of_mem _ hz, hzk⟩
        · rintro (hk | ⟨z, hz, hzk⟩)
          · exact Or.inl (List.mem_cons_of_mem _ hk)
          · rcases List.mem_cons.mp hz with rfl | hz2
            · exact Or.inl (hzk ▸ List.mem_cons_self _ _)
            · exact Or.inr ⟨z, hz2, hzk⟩

theorem dedupByKeyAux_append {α κ : Type} [DecidableEq κ] (key : α → κ) :
    ∀ (l₁ l₂ : List α) (seen : List κ),
      dedupByKeyAux key seen (l₁ ++ l₂) =
        dedupByKeyAux key seen l₁ ++ dedupByKeyAux key (seenAfter key seen l₁) l₂ := by
  intro l₁
  induction l₁ with
  | nil => intro l₂ seen; simp [dedupByKeyAux, seenAfter]
  | cons y rest ih =>
      intro l₂ seen
      simp only [List.cons_append, dedupByKeyAux, seenAfter]
      by_cases h : key y ∈ seen
      · simp only [if_pos h]
        exact ih l₂ seen
      · simp only [if_neg h, List.cons_append]
        exact congrArg (fun l => y :: l) (ih l₂ (key y :: seen))

theorem dedupByKeyAux_eq_nil {α κ : Type} [DecidableEq κ] (key : α → κ) :
    ∀ (l : List α) (seen : List κ),
      (∀ x ∈ l, key x ∈ seen) → dedupByKeyAux key seen l = [] := by
  intro l
  induction l with
  | nil => intro seen _; simp [dedupByKeyAux]
  | cons y rest ih =>
      intro seen hall
      simp only [dedupByKeyAux]
      rw [if_pos (hall y (List.mem_cons_self _ _))]
      exact ih seen (fun x hx => hall x (List.mem_cons_of_mem _ hx))

theorem dedupByKeyAux_self_append {α κ : Type} [DecidableEq κ] (key : α → κ)
    (l : List α) :
    dedupByKeyAux key [] (l ++ l) = dedupByKeyAux key [] l := by
  rw [dedupByKeyAux_append]
  rw [dedupByKeyAux_eq_nil key l (seenAfter key [] l)]
  · exact List.append_nil _
  · intro x hx
    rw [mem_seenAfter]
    exact Or.inr ⟨x, hx, rfl⟩

/-- C7: every connection graph returned by `GraphService.get_connections`
has nodes pairwise distinct by id and edges pairwise distinct by the
(source, target, relationship_type) triple, each element being the first
occurrence with its key among the parsed raw records; node_count and
edge_count are the lengths of the de-duplicated lists; and presenting the
same raw nodes and relationships twice yields exactly the same graph
(hence the same node_count and edge_count) as presenting them once. -/
theorem connection_graph_deduplicated (node_id : Int) (depth : Nat)
    (queryResult : Except String (List GraphRecord)) (g : ConnectionGraph)
    (h : get_connections node_id depth queryResult = .ok g) :
    g.nodes.Pairwise (fun a b => a.id ≠ b.id)
    ∧ g.edges.Pairwise (fun a b => edgeKey a ≠ edgeKey b)
    ∧ g.node_count = g.nodes.length
    ∧ g.edge_count = g.edges.length
    ∧ (∀ record rest, queryResult = .ok (record :: rest) →
        (∀ n ∈ g.nodes,
            (record.nodes.map parseGraphNode).find?
              (fun m => decide (m.id = n.id)) = some n)
        ∧ (∀ e ∈ g.edges,
            (record.edges.map parseGraphEdge).find?
              (fun m => decide (edgeKey m = edgeKey e)) = some e)
        ∧ get_connections node_id depth
            (.ok [{ nodes := record.nodes ++ record.nodes,
                    edges := record.edges ++ record.edges }]) = .ok g) := by
  match queryResult, h with
  | .ok records, h =>
    match records, h with
    | [], h =>
        simp only [get_connections] at h
        obtain rfl := (Except.ok.inj h).symm
        refine ⟨List.Pairwise.nil, List.Pairwise.nil, rfl, rfl, ?_⟩
        intro record rest hcontra
        exact absurd (Except.ok.inj hcontra) (by simp)
    | record :: rest, h =>
        simp only [get_connections] at h
        by_cases hemp : record.nodes.isEmpty
        · rw [if_pos hemp] at h
          obtain rfl := (Except.ok.inj h).symm
          refine ⟨List.Pairwise.nil, List.Pairwise.nil, rfl, rfl, ?_⟩
          intro record2 rest2 heq
          obtain ⟨hrec, -⟩ := List.cons.inj (Except.ok.inj heq)
          subst hrec
          refine ⟨(by simp [emptyConnectionGraph]), (by simp [emptyConnectionGraph]), ?_⟩
          have hnil : record.nodes = [] := List.isEmpty_iff.mp hemp
          simp [get_connections, hnil, emptyConnectionGraph]
        · rw [if_neg hemp] at h
          obtain rfl := (Except.ok.inj h).symm
          refine ⟨dedupByKeyAux_pairwise _ _ _, dedupByKeyAux_pairwise _ _ _, rfl, rfl, ?_⟩
          intro record2 rest2 heq
          obtain ⟨hrec, -⟩ := List.cons.inj (Except.ok.inj heq)
          subst hrec
          refine ⟨?_, ?_, ?_⟩
          · intro n hn
            have hn2 : n ∈ dedupByKeyAux (fun nd => nd.id) []
                (record.nodes.map parseGraphNode) := hn
            exact dedupByKeyAux_find (fun nd => nd.id) _ [] n hn2
          · intro e he
            have he2 : e ∈ dedupByKeyAux edgeKey []
                (record.edges.map parseGraphEdge) := he
            exact dedupByKeyAux_find edgeKey _ [] e he2
          · have hne2 : ¬((record.nodes ++ record.nodes).isEmpty = true) := by
              intro hcontra
              have h2 := List.isEmpty_iff.mp hcontra
              have h3 := (List.append_eq_nil.mp h2).1
              exact hemp (List.isEmpty_iff.mpr h3)
            simp only [get_connections]
            rw [if_neg hne2]
            simp only [deduplicateNodes, deduplicateEdges, List.map_append]
            rw [dedupByKeyAux_self_append, dedupByKeyAux_self_append]

/-- Witness for C7 at a concrete query result containing a duplicated
node. -/
theorem connection_graph_deduplicated_witness :
    sampleConnectionGraph.nodes.Pairwise (fun a b => a.id ≠ b.id)
    ∧ sampleConnectionGraph.edges.Pairwise (fun a b => edgeKey a ≠ edgeKey b)
    ∧ sampleConnectionGraph.node_count = sampleConnectionGraph.nodes.length
    ∧ sampleConnectionGraph.edge_count = sampleConnectionGraph.edges.length := by
  have hw := connection_graph_deduplicated 1 2 (.ok [sampleGraphRecordDup])
    sampleConnectionGraph rfl
  exact ⟨hw.1, hw.2.1, hw.2.2.1, hw.2.2.2.1⟩

/-- C8: `OffshoreLeaksService.get_by_id` distinguishes "not found" from
"query failed" for every input: a query that executes and matches no node
returns `none` (not an error), a query whose execution fails raises a
propagated APIError, and a matching record is parsed and returned. -/
theorem get_by_id_not_found_vs_error (node_id : Int)
    (queryResult : Except String (List OffshoreRecord)) :
    (get_by_id node_id queryResult = .ok none ↔ queryResult = .ok [])
    ∧ ((∃ msg, get_by_id node_id queryResult = .error msg) ↔
        ∃ e, queryResult = .error e)
    ∧ (∀ record rest, queryResult = .ok (record :: rest) →
        get_by_id node_id queryResult = .ok (some (parse_record 100 record))) := by
  match queryResult with
  | .error e =>
      refine ⟨(by simp [get_by_id]), ?_, ?_⟩
      · constructor
        · intro _; exact ⟨e, rfl⟩
        · intro _; exact ⟨"Failed to get entity by ID: " ++ e, rfl⟩
      · intro record rest hcontra
        exact Except.noConfusion hcontra
  | .ok [] =>
      refine ⟨(by simp [get_by_id]), ?_, ?_⟩
      · simp [get_by_id]
      · intro record rest hcontra
        exact absurd (Except.ok.inj hcontra) (by simp)
  | .ok (record :: rest) =>
      refine ⟨(by simp [get_by_id]), (by simp [get_by_id]), ?_⟩
      intro record2 rest2 heq
      obtain ⟨hrec, -⟩ := List.cons.inj (Except.ok.inj heq)
      subst hrec
      rfl

/-- Witness for C8 at a concrete matching record. -/
theorem get_by_id_not_found_vs_error_witness :
    get_by_id 5 (.ok [sampleOffshoreRecord]) =
      .ok (some (parse_record 100 sampleOffshoreRecord)) :=
  (get_by_id_not_found_vs_error 5 (.ok [sampleOffshoreRecord])).2.2 _ _ rfl

theorem mkSearchRequest_def2 (query search_type : String) (sources : List String)
    (limit fuzzy_threshold : Int) :
    mkSearchRequest query search_type sources limit fuzzy_threshold =
      if query.length < 2 then .error "query too short"
      else if 200 < query.length then .error "query too long"
      else if (pyStrip query).isEmpty then .error "Query cannot be empty"
      else if !validSearchType search_type then .error "invalid search_type"
      else if !sources.all validSource then .error "invalid source"
      else if sources.isEmpty then .error "At least one source must be selected"
      else if limit < 1 then .error "limit out of range"
      else if 50 < limit then .error "limit out of range"
      else if fuzzy_threshold < 50 then .error "fuzzy_threshold out of range"
      else if 100 < fuzzy_threshold then .error "fuzzy_threshold out of range"
      else .ok { query := String.mk ((pyStrip query).toList.filter pyIsPrintable)
                 search_type := search_type
                 sources := sources
                 limit := limit
                 fuzzy_threshold := fuzzy_threshold } := by
  rw [mkSearchRequest, validate_query]
  by_cases h3 : (pyStrip query).isEmpty
  · simp [h3]
  · simp [h3]

/-- C9 counterexample: a query of two NUL characters passes the declared
length bounds (which pydantic checks on the raw string, before the
validator runs), survives `strip` (NUL is not whitespace), and the
printable-only sanitizer then erases it entirely — construction succeeds
and stores an empty query of length 0, though the claim requires the
length bounds and non-emptiness to hold for the sanitized form. -/
theorem request_length_checked_before_sanitize_counterexample :
    mkSearchRequest "\x00\x00" "exact" ["opensanctions"] 10 80 =
      .ok { query := ""
            search_type := "exact"
            sources := ["opensanctions"]
            limit := 10
            fuzzy_threshold := 80 }
    ∧ ("\x00\x00" : String).length = 2
    ∧ pyStrip "\x00\x00" ≠ ""
    ∧ (String.mk ((pyStrip "\x00\x00").toList.filter pyIsPrintable)).length = 0 := by
  refine ⟨?_, rfl, (by decide), rfl⟩
  rfl

/-- C9 (amended): constructing a SearchRequest succeeds exactly when the
raw query has length 2..200 and is non-empty after stripping, search_type
is one of the two literals, sources is a non-empty list of valid source
literals, limit lies in 1..50 and fuzzy_threshold in 50..100; every
violating request is rejected with a validation error before any source is
contacted. The length bounds apply to the raw query; the stored query is
the stripped, printable-only form, which may be shorter than 2 characters
(even empty). -/
theorem mkSearchRequest_ok_iff (query search_type : String) (sources : List String)
    (limit fuzzy_threshold : Int) :
    ((∃ req, mkSearchRequest query search_type sources limit fuzzy_threshold = .ok req) ↔
      (2 ≤ query.length ∧ query.length ≤ 200 ∧ pyStrip query ≠ "" ∧
        validSearchType search_type = true ∧ sources ≠ [] ∧
        (∀ s ∈ sources, validSource s = true) ∧
        1 ≤ limit ∧ limit ≤ 50 ∧ 50 ≤ fuzzy_threshold ∧ fuzzy_threshold ≤ 100))
    ∧ (∀ req, mkSearchRequest query search_type sources limit fuzzy_threshold = .ok req →
        req.query = String.mk ((pyStrip query).toList.filter pyIsPrintable) ∧
        req.search_type = search_type ∧ req.sources = sources ∧
        req.limit = limit ∧ req.fuzzy_threshold = fuzzy_threshold) := by
  have hfields : ∀ req,
      mkSearchRequest query search_type sources limit fuzzy_threshold = .ok req →
      ((2 ≤ query.length ∧ query.length ≤ 200 ∧ pyStrip query ≠ "" ∧
          validSearchType search_type = true ∧ sources ≠ [] ∧
          (∀ s ∈ sources, validSource s = true) ∧
          1 ≤ limit ∧ limit ≤ 50 ∧ 50 ≤ fuzzy_threshold ∧ fuzzy_threshold ≤ 100) ∧
        (req.query = String.mk ((pyStrip query).toList.filter pyIsPrintable) ∧
          req.search_type = search_type ∧ req.sources = sources ∧
          req.limit = limit ∧ req.fuzzy_threshold = fuzzy_threshold)) := by
    intro req hreq
    rw [mkSearchRequest_def2] at hreq
    by_cases h1 : query.length < 2
    · rw [if_pos h1] at hreq; exact Except.noConfusion hreq
    rw [if_neg h1] at hreq
    by_cases h2 : 200 < query.length
    · rw [if_pos h2] at hreq; exact Except.noConfusion hreq
    rw [if_neg h2] at hreq
    by_cases h3 : (pyStrip query).isEmpty = true
    · rw [if_pos h3] at hreq; exact Except.noConfusion hreq
    rw [if_neg h3] at hreq
    by_cases h4 : (!validSearchType search_type) = true
    · rw [if_pos h4] at hreq; exact Except.noConfusion hreq
    rw [if_neg h4] at hreq
    by_cases h5 : (!sources.all validSource) = true
    · rw [if_pos h5] at hreq; exact Except.noConfusion hreq
    rw [if_neg h5] at hreq
    by_cases h6 : sources.isEmpty = true
    · rw [if_pos h6] at hreq; exact Except.noConfusion hreq
    rw [if_neg h6] at hreq
    by_cases h7 : limit < 1
    · rw [if_pos h7] at hreq; exact Except.noConfusion hreq
    rw [if_neg h7] at hreq
    by_cases h8 : 50 < limit
    · rw [if_pos h8] at hreq; exact Except.noConfusion hreq
    rw [if_neg h8] at hreq
    by_cases h9 : fuzzy_threshold < 50
    · rw [if_pos h9] at hreq; exact Except.noConfusion hreq
    rw [if_neg h9] at hreq
    by_cases h10 : 100 < fuzzy_threshold
    · rw [if_pos h10] at hreq; exact Except.noConfusion hreq
    rw [if_neg h10] at hreq
    obtain rfl := (Except.ok.inj hreq).symm
    refine ⟨⟨(by omega), (by omega), ?_, (by simpa using h4), ?_, ?_,
      (by omega), (by omega), (by omega), (by omega)⟩, rfl, rfl, rfl, rfl, rfl⟩
    · intro hcon
      exact h3 ((String.isEmpty_iff _).mpr hcon)
    · intro hcon
      exact h6 (by simp [hcon])
    · have h5b : sources.all validSource = true := by simpa using h5
      exact fun s hs => List.all_eq_true.mp h5b s hs
  refine ⟨⟨?_, ?_⟩, fun req hreq => (hfields req hreq).2⟩
  · rintro ⟨req, hreq⟩
    exact (hfields req hreq).1
  · rintro ⟨hq1, hq2, hq3, hq4, hq5, hq6, hq7, hq8, hq9, hq10⟩
    refine ⟨{ query := String.mk ((pyStrip query).toList.filter pyIsPrintable)
              search_type := search_type
              sources := sources
              limit := limit
              fuzzy_threshold := fuzzy_threshold }, ?_⟩
    rw [mkSearchRequest_def2]
    rw [if_neg (by omega), if_neg (by omega),
      if_neg (fun hc => hq3 ((String.isEmpty_iff _).mp hc)),
      if_neg (by simp [hq4]),
      if_neg (by simp [List.all_eq_true]; exact hq6),
      if_neg (by simp [List.isEmpty_iff, hq5]),
      if_neg (by omega), if_neg (by omega), if_neg (by omega), if_neg (by omega)]

/-- Witness for C9 (amended) at a concrete valid request. -/
theorem mkSearchRequest_ok_iff_witness :
    (∃ req, mkSearchRequest "Vladimir Putin" "fuzzy" ["opensanctions"] 10 80 = .ok req) ∧
      ∀ req, mkSearchRequest "Vladimir Putin" "fuzzy" ["opensanctions"] 10 80 = .ok req →
        req.query = String.mk ((pyStrip "Vladimir Putin").toList.filter pyIsPrintable) :=
  ⟨(mkSearchRequest_ok_iff "Vladimir Putin" "fuzzy" ["opensanctions"] 10 80).1.mpr
      ⟨(by decide), (by decide), (by decide), (by decide), (by decide),
        (by decide), (by decide), (by decide), (by decide), (by decide)⟩,
    fun req hreq =>
      ((mkSearchRequest_ok_iff "Vladimir Putin" "fuzzy" ["opensanctions"] 10 80).2
        req hreq).1⟩

theorem appendUniqueLocals_name_mem :
    ∀ (locals : List Entity) (existing_names : List String) (l : Entity),
      l ∈ locals → pyLower l.name ∉ existing_names →
      ∃ e ∈ appendUniqueLocals existing_names locals,
        pyLower e.name = pyLower l.name := by
  intro locals
  induction locals with
  | nil => intro existing l hl _; cases hl
  | cons y rest ih =>
      intro existing l hl hnot
      simp only [appendUniqueLocals]
      by_cases h : pyLower y.name ∈ existing
      · rw [if_pos h]
        rcases List.mem_cons.mp hl with rfl | hl2
        · exact absurd h hnot
        · exact ih existing l hl2 hnot
      · rw [if_neg h]
        rcases List.mem_cons.mp hl with rfl | hl2
        · exact ⟨l, List.mem_cons_self _ _, rfl⟩
        · by_cases hsame : pyLower l.name = pyLower y.name
          · exact ⟨y, List.mem_cons_self _ _, hsame.symm⟩
          · have hnot2 : pyLower l.name ∉ pyLower y.name :: existing := by
              intro hc
              rcases List.mem_cons.mp hc with hc1 | hc2
              · exact hsame hc1
              · exact hnot hc2
            obtain ⟨e, he, hee⟩ := ih (pyLower y.name :: existing) l hl2 hnot2
            exact ⟨e, List.mem_cons_of_mem _ he, hee⟩

theorem perform_search_eq (cs : String → String → Nat) (request : SearchRequest)
    (osCall siCall : Except RaisedException (List Entity))
    (offshoreCall : Except String (List Entity))
    (localCall : List Entity × Option String)
    (hos : "opensanctions" ∈ request.sources) :
    perform_search cs request osCall siCall offshoreCall localCall =
      aggregate cs request.fuzzy_threshold.toNat request.query request.search_type
        (mergeLocalResults (search_source osCall).1 (search_source osCall).2 localCall.1).1
        (if "sanctions_io" ∈ request.sources then search_source siCall else ([], none)).1
        (mergeLocalResults (search_source osCall).1 (search_source osCall).2 localCall.1).2
        (if "sanctions_io" ∈ request.sources then search_source siCall else ([], none)).2
        (some (if "offshore_leaks" ∈ request.sources then
          (match offshoreCall with
           | .ok results => (results, (none : Option String))
           | .error e => ([], some e)) else ([], none)).1)
        (if "offshore_leaks" ∈ request.sources then
          (match offshoreCall with
           | .ok results => (results, (none : Option String))
           | .error e => ([], some e)) else ([], none)).2
        (some request.sources) := by
  simp only [perform_search, if_pos hos]

/-- C10: in `perform_search`, when the remote opensanctions call came back
with a truthy error and no results and the local sanctions store returned
a non-empty list, the opensanctions input is silently replaced by the
local results and its error cleared, so the bucket carries the scored
local entities with no error and opensanctions lands in sources_succeeded
despite the remote failure; when the remote call returned a non-empty
result list, the local entities are instead appended behind it, skipping
those whose lowercased name is already present (each remaining local name
is represented in the merged list), and the remote error is kept. -/
theorem local_fallback_replaces_and_appends
    (cs : String → String → Nat) (request : SearchRequest)
    (osCall siCall : Except RaisedException (List Entity))
    (offshoreCall : Except String (List Entity))
    (localCall : List Entity × Option String)
    (hos : "opensanctions" ∈ request.sources) :
    (strTruthy (search_source osCall).2 = true → (search_source osCall).1 = [] →
      localCall.1 ≠ [] →
      (perform_search cs request osCall siCall offshoreCall
            localCall).results_by_source.opensanctions.results =
          scoreResults cs request.query localCall.1 request.search_type
            request.fuzzy_threshold.toNat
        ∧ (perform_search cs request osCall siCall offshoreCall
            localCall).results_by_source.opensanctions.error = none
        ∧ "opensanctions" ∈ (perform_search cs request osCall siCall offshoreCall
            localCall).sources_succeeded
        ∧ "opensanctions" ∉ (perform_search cs request osCall siCall offshoreCall
            localCall).sources_failed)
    ∧ ((search_source osCall).1 ≠ [] →
        (perform_search cs request osCall siCall offshoreCall
            localCall).results_by_source.opensanctions.results =
          scoreResults cs request.query
            ((search_source osCall).1 ++
              appendUniqueLocals ((search_source osCall).1.map (fun e => pyLower e.name))
                localCall.1)
            request.search_type request.fuzzy_threshold.toNat
        ∧ (perform_search cs request osCall siCall offshoreCall
            localCall).results_by_source.opensanctions.error = (search_source osCall).2
        ∧ (∀ l ∈ localCall.1,
            pyLower l.name ∉ (search_source osCall).1.map (fun e => pyLower e.name) →
            ∃ e ∈ (search_source osCall).1 ++
                appendUniqueLocals
                  ((search_source osCall).1.map (fun e => pyLower e.name)) localCall.1,
              pyLower e.name = pyLower l.name)) := by
  have hsne : ¬request.sources.isEmpty := by
    intro hc
    rw [List.isEmpty_iff.mp hc] at hos
    cases hos
  have hsearch : sourcesOrDefault (some request.sources) = request.sources := by
    simp [sourcesOrDefault, hsne]
  constructor
  · intro herr hempty hlocal
    have hmerge : mergeLocalResults (search_source osCall).1 (search_source osCall).2
        localCall.1 = (localCall.1, none) := by
      rw [mergeLocalResults]
      rw [if_neg (by simp [List.isEmpty_iff, hlocal])]
      rw [if_pos (by simp [herr, hempty])]
    rw [perform_search_eq cs request osCall siCall offshoreCall localCall hos, hmerge]
    refine ⟨?_, ?_, ?_, ?_⟩
    · rw [aggregate_os_results]
    · rw [aggregate_os_bucket]
    · rw [aggregate_sources_succeeded, hsearch]
      rw [List.append_assoc]
      exact (mem_ite_singleton_append _ _ _ _).mpr (Or.inl ⟨⟨hos, (by simp [strTruthy])⟩, rfl⟩)
    · rw [aggregate_sources_failed, hsearch]
      rw [List.append_assoc]
      intro hc
      rcases (mem_ite_singleton_append _ _ _ _).mp hc with ⟨⟨-, hcc⟩, -⟩ | hc2
      · simp [strTruthy] at hcc
      · rcases (mem_ite_singleton_append _ _ _ _).mp hc2 with ⟨-, hcc⟩ | hc3
        · exact absurd hcc (by decide)
        · rcases (mem_ite_singleton _ _ _).mp hc3 with ⟨-, hcc⟩
          exact absurd hcc (by decide)
  · intro hne
    have hmerge : mergeLocalResults (search_source osCall).1 (search_source osCall).2
        localCall.1 =
        ((search_source osCall).1 ++
           appendUniqueLocals ((search_source osCall).1.map (fun e => pyLower e.name))
             localCall.1,
         (search_source osCall).2) := by
      rw [mergeLocalResults]
      by_cases hl : localCall.1.isEmpty
      · rw [if_pos hl]
        have : localCall.1 = [] := List.isEmpty_iff.mp hl
        rw [this]
        simp [appendUniqueLocals]
      · rw [if_neg hl]
        rw [if_neg (by simp [List.isEmpty_iff, hne])]
    rw [perform_search_eq cs request osCall siCall offshoreCall localCall hos, hmerge]
    refine ⟨?_, ?_, ?_⟩
    · rw [aggregate_os_results]
    · rw [aggregate_os_bucket]
    · intro l hl hnot
      obtain ⟨e, he, hee⟩ := appendUniqueLocals_name_mem localCall.1
        ((search_source osCall).1.map (fun e => pyLower e.name)) l hl hnot
      exact ⟨e, List.mem_append_right _ he, hee⟩

/-- Witness for C10 at a concrete failed remote call with one local
result. -/
theorem local_fallback_replaces_and_appends_witness :
    (perform_search (fun _ _ => 100)
          { query := "q", search_type := "fuzzy", sources := ["opensanctions"],
            limit := 10, fuzzy_threshold := 80 }
          (.error (.api "boom")) (.ok []) (.ok [])
          ([{ name := "Alice", aliases := [], is_sanctioned := true, match_score := 100 }],
            none)).results_by_source.opensanctions.results =
        scoreResults (fun _ _ => 100) "q"
          [{ name := "Alice", aliases := [], is_sanctioned := true, match_score := 100 }]
          "fuzzy" (80 : Int).toNat
      ∧ (perform_search (fun _ _ => 100)
          { query := "q", search_type := "fuzzy", sources := ["opensanctions"],
            limit := 10, fuzzy_threshold := 80 }
          (.error (.api "boom")) (.ok []) (.ok [])
          ([{ name := "Alice", aliases := [], is_sanctioned := true, match_score := 100 }],
            none)).results_by_source.opensanctions.error = none
      ∧ "opensanctions" ∈ (perform_search (fun _ _ => 100)
          { query := "q", search_type := "fuzzy", sources := ["opensanctions"],
            limit := 10, fuzzy_threshold := 80 }
          (.error (.api "boom")) (.ok []) (.ok [])
          ([{ name := "Alice", aliases := [], is_sanctioned := true, match_score := 100 }],
            none)).sources_succeeded
      ∧ "opensanctions" ∉ (perform_search (fun _ _ => 100)
          { query := "q", search_type := "fuzzy", sources := ["opensanctions"],
            limit := 10, fuzzy_threshold := 80 }
          (.error (.api "boom")) (.ok []) (.ok [])
          ([{ name := "Alice", aliases := [], is_sanctioned := true, match_score := 100 }],
            none)).sources_failed :=
  (local_fallback_replaces_and_appends (fun _ _ => 100)
      { query := "q", search_type := "fuzzy", sources := ["opensanctions"],
        limit := 10, fuzzy_threshold := 80 }
      (.error (.api "boom")) (.ok []) (.ok [])
      ([{ name := "Alice", aliases := [], is_sanctioned := true, match_score := 100 }],
        none)
      (List.mem_singleton.mpr rfl)).1 rfl rfl (by decide)

end ClearGate
